import Mathlib

/-!
Verification development for the sharded engagement-task system
(`task_service.py`, `worker.py`, `database.py`, `session_manager.py`).

Times (Unix epoch seconds) are modelled as rationals; machine floats in the
source are treated as exact arithmetic.  All definitions are shallow
embeddings of the corresponding Python functions, named after them.
-/

namespace ArtoTasks

/-! ## Identity (account) data model, from `database.py` (table `accounts`) -/

/-- Account status column: `CHECK (status IN ('active', 'pause', 'ban'))`. -/
inductive Status
  | active
  | pause
  | ban
deriving DecidableEq

/-- Row of the `accounts` table, restricted to the columns the claims touch:
`status`, `fail` (consecutive failure counter) and `last_used`. -/
structure Account where
  status : Status
  fail : ℕ
  lastUsed : ℚ
deriving DecidableEq

/-- Embeds `database.increment_account_fails`:
`UPDATE accounts SET fail = fail + 1, last_used = CURRENT_TIMESTAMP ... RETURNING fail`.
Returns the updated row and the returned new counter. -/
def increment_account_fails (now : ℚ) (a : Account) : Account × ℕ :=
  ({ a with fail := a.fail + 1, lastUsed := now }, a.fail + 1)

/-- Embeds `database.reset_account_fails`:
`UPDATE accounts SET fail = 0, status = 'active', last_used = CURRENT_TIMESTAMP`. -/
def reset_account_fails (now : ℚ) (a : Account) : Account :=
  { a with fail := 0, status := Status.active, lastUsed := now }

/-- Embeds `database.update_account_status`: `UPDATE accounts SET status = $1`. -/
def update_account_status (s : Status) (a : Account) : Account :=
  { a with status := s }

/-- Embeds `database.mark_account_retry_attempt`:
`UPDATE accounts SET last_used = CURRENT_TIMESTAMP`. -/
def mark_account_retry_attempt (now : ℚ) (a : Account) : Account :=
  { a with lastUsed := now }

/-! ## Worker-side identity handling, from `worker.py` -/

/-- An account together with whether its session is currently loaded in the
session pool (`global_session_manager`). -/
structure WorkerAccount where
  acc : Account
  inPool : Bool
deriving DecidableEq

/-- Embeds `TaskWorker._handle_task_success`: on any successful task execution
the worker calls `reset_account_fails(phone)`. -/
def handle_task_success (now : ℚ) (w : WorkerAccount) : WorkerAccount :=
  { w with acc := reset_account_fails now w.acc }

/-- Embeds `TaskWorker._handle_task_failure`: increments the failure counter;
once the returned count reaches 3 (`if fail_count >= 3`) the account status is
set to `'ban'` and its session is removed from the pool
(`remove_session_by_phone`). -/
def handle_task_failure (now : ℚ) (w : WorkerAccount) : WorkerAccount :=
  let r := increment_account_fails now w.acc
  if 3 ≤ r.2 then
    { acc := update_account_status Status.ban r.1, inPool := false }
  else
    { w with acc := r.1 }

/-! ## Execution error dispatch, from `worker.py`
(`_execute_view_task` / `_execute_subscription_task` exception clauses) and
session-load credential failures (`session_manager.SessionManager._load_batch`). -/

/-- The exception classes distinguished by the task executors. -/
inductive ExecError
  | floodWait (seconds : ℚ)
  | rpcError
  | authKeyInvalid
  | unexpected
deriving DecidableEq

/-- Entry of the `retry_tasks` list. -/
structure RetryTask where
  phone : ℕ
  retryCount : ℕ
  retryAfter : ℚ
deriving DecidableEq

/-- Embeds `TaskWorker._add_to_retry_queue` (with `self.max_retries = 3`):
bumps `retry_count`, sets `retry_after = now + delay + jitter`
(jitter drawn from `uniform(60, 300)`), and pushes onto `retry_tasks`
only while `retry_count <= max_retries`. -/
def add_to_retry_queue (now jitter : ℚ) (t : RetryTask) (delay : ℚ)
    (q : List RetryTask) : List RetryTask :=
  let t1 := { t with retryCount := t.retryCount + 1, retryAfter := now + delay + jitter }
  if t1.retryCount ≤ 3 then t1 :: q else q

/-- Embeds the `except` clauses of `_execute_view_task` /
`_execute_subscription_task`: `FloodWaitError` goes to the retry queue;
`RPCError`, `AuthKeyInvalidError` and any unexpected exception go to
`_handle_task_failure`.  Result: updated account and retry queue. -/
def handle_exec_error (now jitter : ℚ) (e : ExecError) (t : RetryTask)
    (w : WorkerAccount) (q : List RetryTask) : WorkerAccount × List RetryTask :=
  match e with
  | ExecError.floodWait s => (w, add_to_retry_queue now jitter t s q)
  | ExecError.rpcError => (handle_task_failure now w, q)
  | ExecError.authKeyInvalid => (handle_task_failure now w, q)
  | ExecError.unexpected => (handle_task_failure now w, q)

/-- Embeds the credential-failure branch of `SessionManager._load_batch`:
when building a connection raises `AuthKeyInvalidError` / `InvalidSessionError`
the account is set straight to `'ban'`; other load errors leave the row
untouched. -/
def handle_load_failure (invalidCredential : Bool) (a : Account) : Account :=
  if invalidCredential then update_account_status Status.ban a else a

/-! ## Quarantine-recovery probe, from `worker.py`
(`_check_banned_accounts_for_retry`) -/

/-- Outcome of the single test subscription the sweep attempts. -/
inductive ProbeOutcome
  | success
  | failure
deriving DecidableEq

/-- Embeds the per-account body of `_check_banned_accounts_for_retry`:
first `mark_account_retry_attempt(phone)`, then the test task runs through
`_execute_task`, which ends in `_handle_task_success` on success and in
`_handle_task_failure` on failure. -/
def probe_banned_account (now : ℚ) (o : ProbeOutcome) (w : WorkerAccount) :
    WorkerAccount :=
  let w1 := { w with acc := mark_account_retry_attempt now w.acc }
  match o with
  | ProbeOutcome.success => handle_task_success now w1
  | ProbeOutcome.failure => handle_task_failure now w1

/-! ## Helper lemmas on the failure state machine -/

/-- Closed form of one `_handle_task_failure` step. -/
theorem handle_task_failure_eq (now : ℚ) (w : WorkerAccount) :
    handle_task_failure now w =
      if 3 ≤ w.acc.fail + 1 then
        ⟨⟨Status.ban, w.acc.fail + 1, now⟩, false⟩
      else
        ⟨⟨w.acc.status, w.acc.fail + 1, now⟩, w.inPool⟩ := rfl

/-- Iterating `_handle_task_failure` from a clean counter: after `k`
consecutive failures the counter is exactly `k`, and the ban transition
(status `'ban'`, session evicted) has happened exactly when `3 ≤ k`. -/
theorem iterate_handle_task_failure (now : ℚ) (w : WorkerAccount) (k : ℕ)
    (hfail : w.acc.fail = 0) :
    ((handle_task_failure now)^[k] w).acc.fail = k
    ∧ ((handle_task_failure now)^[k] w).acc.status
        = (if 3 ≤ k then Status.ban else w.acc.status)
    ∧ ((handle_task_failure now)^[k] w).inPool
        = (if 3 ≤ k then false else w.inPool) := by
  induction k with
  | zero => simp [hfail]
  | succ n ih =>
    obtain ⟨h1, h2, h3⟩ := ih
    rw [Function.iterate_succ_apply', handle_task_failure_eq, h1, h2, h3]
    by_cases hn : 3 ≤ n + 1
    · simp [hn]
    · have hn' : ¬ 3 ≤ n := fun h => hn (Nat.le_succ_of_le h)
      simp [hn, hn']

/-! ## Claim theorems on the failure/ban state machine -/

/-- C2: a successful execution resets the consecutive failure counter to 0,
each failure increments it by exactly 1, and starting from a clean identity
(`fail = 0`) the transition to quarantine (status `'ban'` plus eviction from
the session pool) happens exactly at the 3rd consecutive failure — never at
the 2nd, and the status is already `'ban'` by the 4th. -/
theorem failure_escalation_at_third (now : ℚ) (w : WorkerAccount) (k : ℕ)
    (hfail : w.acc.fail = 0) (hstatus : w.acc.status = Status.active)
    (hpool : w.inPool = true) :
    (handle_task_success now w).acc.fail = 0
    ∧ (handle_task_failure now w).acc.fail = w.acc.fail + 1
    ∧ ((handle_task_failure now)^[k] w).acc.fail = k
    ∧ (((handle_task_failure now)^[k] w).acc.status = Status.ban ↔ 3 ≤ k)
    ∧ (((handle_task_failure now)^[k] w).inPool = false ↔ 3 ≤ k) := by
  obtain ⟨h1, h2, h3⟩ := iterate_handle_task_failure now w k hfail
  refine ⟨rfl, ?_, h1, ?_, ?_⟩
  · rw [handle_task_failure_eq]
    by_cases h : 3 ≤ w.acc.fail + 1 <;> simp [h]
  · rw [h2, hstatus]
    by_cases h : 3 ≤ k <;> simp [h]
  · rw [h3, hpool]
    by_cases h : 3 ≤ k <;> simp [h]

/-- Witness for `failure_escalation_at_third` at a concrete clean identity
and `k = 3`. -/
theorem failure_escalation_at_third_witness :
    (({ acc := { status := Status.active, fail := 0, lastUsed := 0 },
        inPool := true } : WorkerAccount).acc.fail = 0)
    ∧ ((handle_task_failure 5)^[3]
        { acc := { status := Status.active, fail := 0, lastUsed := 0 },
          inPool := true }).acc.status = Status.ban :=
  ⟨rfl,
    ((failure_escalation_at_third 5
      { acc := { status := Status.active, fail := 0, lastUsed := 0 }, inPool := true }
      3 rfl rfl rfl).2.2.2.1).mpr (by decide)⟩

/-- C10: `_handle_task_success` does more than zero the counter — through
`reset_account_fails` it unconditionally sets the status to `'active'` and
refreshes `last_used`, whatever the previous status (`'pause'` and `'ban'`
included), and it does not touch the session pool. -/
theorem success_unconditionally_reinstates (now : ℚ) (w : WorkerAccount) :
    (handle_task_success now w).acc.status = Status.active
    ∧ (handle_task_success now w).acc.fail = 0
    ∧ (handle_task_success now w).acc.lastUsed = now
    ∧ (handle_task_success now w).inPool = w.inPool :=
  ⟨rfl, rfl, rfl, rfl⟩

/-- C8 counterexample: a failed recovery probe does NOT leave the failure
counter unchanged.  Probing a quarantined identity with counter 3 and a
failing probe yields counter 4 (the probe failure runs through
`_handle_task_failure`, which increments). -/
theorem probe_failure_changes_counter :
    (probe_banned_account 1000 ProbeOutcome.failure
        { acc := { status := Status.ban, fail := 3, lastUsed := 0 },
          inPool := false }).acc.fail ≠ 3 := by
  decide

/-- C8 (amended): a successful probe reinstates the identity to `'active'`
with counter 0; a failed probe leaves the status quarantined (`'ban'`) and
refreshes the last-probed timestamp, but increments the failure counter by 1
instead of leaving it unchanged. -/
theorem probe_outcome_effects (now : ℚ) (w : WorkerAccount)
    (hban : w.acc.status = Status.ban) :
    (probe_banned_account now ProbeOutcome.success w).acc.status = Status.active
    ∧ (probe_banned_account now ProbeOutcome.success w).acc.fail = 0
    ∧ (probe_banned_account now ProbeOutcome.failure w).acc.status = Status.ban
    ∧ (probe_banned_account now ProbeOutcome.failure w).acc.fail = w.acc.fail + 1
    ∧ (probe_banned_account now ProbeOutcome.failure w).acc.lastUsed = now := by
  refine ⟨rfl, rfl, ?_, ?_, ?_⟩
  · show (handle_task_failure now
      { w with acc := mark_account_retry_attempt now w.acc }).acc.status = Status.ban
    rw [handle_task_failure_eq]
    split <;> simp [mark_account_retry_attempt, hban]
  · show (handle_task_failure now
      { w with acc := mark_account_retry_attempt now w.acc }).acc.fail = w.acc.fail + 1
    rw [handle_task_failure_eq]
    split <;> simp [mark_account_retry_attempt]
  · show (handle_task_failure now
      { w with acc := mark_account_retry_attempt now w.acc }).acc.lastUsed = now
    rw [handle_task_failure_eq]
    split <;> simp [mark_account_retry_attempt]

/-- Witness for `probe_outcome_effects` at a concrete quarantined identity. -/
theorem probe_outcome_effects_witness :
    (({ acc := { status := Status.ban, fail := 3, lastUsed := 0 },
        inPool := false } : WorkerAccount).acc.status = Status.ban)
    ∧ (probe_banned_account 7 ProbeOutcome.failure
        { acc := { status := Status.ban, fail := 3, lastUsed := 0 },
          inPool := false }).acc.fail = 3 + 1 :=
  ⟨rfl,
    (probe_outcome_effects 7
      { acc := { status := Status.ban, fail := 3, lastUsed := 0 }, inPool := false }
      rfl).2.2.2.1⟩

/-- C7 counterexample: an authorization failure (`AuthKeyInvalidError`) during
task execution does NOT quarantine the identity immediately — with a prior
failure count of 0 the identity stays `'active'` after the failure is
handled. -/
theorem auth_error_no_immediate_quarantine :
    ((handle_exec_error 0 0 ExecError.authKeyInvalid
        { phone := 1, retryCount := 0, retryAfter := 0 }
        { acc := { status := Status.active, fail := 0, lastUsed := 0 },
          inPool := true } []).1.acc.status ≠ Status.ban) := by
  decide

/-- C7 (amended): an authorization failure during task execution is never
placed in the retry structure, but it escalates through the ordinary failure
counter — the identity ends quarantined exactly when it was already
quarantined or the incremented counter reaches 3.  Immediate quarantine on an
invalid credential happens only in the session-pool loading path
(`_load_batch`). -/
theorem auth_error_handling (now jitter : ℚ) (t : RetryTask)
    (w : WorkerAccount) (q : List RetryTask) (a : Account) :
    (handle_exec_error now jitter ExecError.authKeyInvalid t w q).2 = q
    ∧ ((handle_exec_error now jitter ExecError.authKeyInvalid t w q).1.acc.status
          = Status.ban
        ↔ (3 ≤ w.acc.fail + 1 ∨ w.acc.status = Status.ban))
    ∧ (handle_exec_error now jitter ExecError.authKeyInvalid t w q).1.acc.fail
        = w.acc.fail + 1
    ∧ (handle_load_failure true a).status = Status.ban := by
  refine ⟨rfl, ?_, ?_, rfl⟩
  · show ((handle_task_failure now w).acc.status = Status.ban
      ↔ (3 ≤ w.acc.fail + 1 ∨ w.acc.status = Status.ban))
    rw [handle_task_failure_eq]
    by_cases h : 3 ≤ w.acc.fail + 1 <;> simp [h]
  · show (handle_task_failure now w).acc.fail = w.acc.fail + 1
    rw [handle_task_failure_eq]
    by_cases h : 3 ≤ w.acc.fail + 1 <;> simp [h]

/-! ## Quarantine probe cooldown (C9), from `database.get_ban_accounts_for_retry`
and `worker._check_banned_accounts_for_retry`.

Every write the system makes to an account's `last_used` column stamps the
current time (`increment_account_fails`, `reset_account_fails`,
`mark_account_retry_attempt`).  The sweep selects an account only when
`status = 'ban' AND (last_used IS NULL OR last_used < NOW() - INTERVAL '120 hours')`
and stamps `last_used` (via `mark_account_retry_attempt`) before the probe
runs.  We model the `last_used` history of one quarantined account as a
time-ordered event trace. -/

/-- Embeds the `WHERE` clause of `get_ban_accounts_for_retry` restricted to
the `last_used` condition (120 hours = 432000 seconds). -/
def retry_eligible (lastUsed : Option ℚ) (tnow : ℚ) : Bool :=
  match lastUsed with
  | none => true
  | some u => decide (u < tnow - 432000)

/-- Events touching one account's `last_used` column: a recovery probe
(selected by the sweep at `tsel`, marked and executed at `texec ≥ tsel`), or
any other `last_used`-stamping write at time `t`. -/
inductive BanEvent
  | probe (tsel texec : ℚ)
  | touch (t : ℚ)
deriving DecidableEq

/-- Trace validity: events carry nondecreasing times, every probe is selected
only when `retry_eligible` holds of the account's `last_used` at selection
time, and every event stamps `last_used` with its execution time. -/
def validFrom (lastUsed : Option ℚ) (tprev : ℚ) : List BanEvent → Bool
  | [] => true
  | BanEvent.probe ts te :: rest =>
      decide (tprev ≤ ts) && decide (ts ≤ te) && retry_eligible lastUsed ts
        && validFrom (some te) te rest
  | BanEvent.touch t :: rest =>
      decide (tprev ≤ t) && validFrom (some t) t rest

/-- In a trace started with `last_used = a` stamped at time `a`, every probe
executes strictly more than 120 hours after `a`. -/
theorem probe_after_from (es : List BanEvent) :
    ∀ (a ts te : ℚ), validFrom (some a) a es = true →
      BanEvent.probe ts te ∈ es → a + 432000 < te := by
  induction es with
  | nil => intro a ts te _ hm; cases hm
  | cons e rest ih =>
    intro a ts te hv hm
    cases e with
    | probe ts1 te1 =>
      simp only [validFrom, Bool.and_eq_true, decide_eq_true_eq] at hv
      obtain ⟨⟨⟨h1, h2⟩, h3⟩, h4⟩ := hv
      have ha : a < ts1 - 432000 := by
        simpa [retry_eligible] using h3
      rcases List.mem_cons.mp hm with heq | hmem
      · cases heq
        linarith
      · have hrec := ih te1 ts te h4 hmem
        linarith
    | touch t1 =>
      simp only [validFrom, Bool.and_eq_true, decide_eq_true_eq] at hv
      obtain ⟨h1, h2⟩ := hv
      rcases List.mem_cons.mp hm with heq | hmem
      · simp at heq
      · have hrec := ih t1 ts te h2 hmem
        linarith

/-- C9: any two recovery probes of one quarantined identity are more than 120
hours (432000 s) apart — the sweep selects only identities whose `last_used`
is absent or older than 120 hours, and the probe stamps `last_used` before it
is attempted, so within any 120-hour window an identity is probed at most
once. -/
theorem probe_cooldown_120h (lu : Option ℚ) (t0 : ℚ) (l1 rest : List BanEvent)
    (ts1 te1 ts2 te2 : ℚ)
    (hv : validFrom lu t0 (l1 ++ BanEvent.probe ts1 te1 :: rest) = true)
    (hm : BanEvent.probe ts2 te2 ∈ rest) :
    432000 < te2 - te1 := by
  induction l1 generalizing lu t0 with
  | nil =>
    simp only [List.nil_append, validFrom, Bool.and_eq_true, decide_eq_true_eq] at hv
    obtain ⟨⟨⟨h1, h2⟩, h3⟩, h4⟩ := hv
    have := probe_after_from rest te1 ts2 te2 h4 hm
    linarith
  | cons e l ih =>
    cases e with
    | probe ts te =>
      simp only [List.cons_append, validFrom, Bool.and_eq_true] at hv
      exact ih _ _ hv.2
    | touch t =>
      simp only [List.cons_append, validFrom, Bool.and_eq_true] at hv
      exact ih _ _ hv.2

/-- Witness for `probe_cooldown_120h`: a concrete valid two-probe trace. -/
theorem probe_cooldown_120h_witness :
    (validFrom none 0
        ([] ++ BanEvent.probe 0 0 :: [BanEvent.probe 432001 432001]) = true)
    ∧ BanEvent.probe 432001 432001 ∈ [BanEvent.probe 432001 432001]
    ∧ (432000 : ℚ) < 432001 - 0 :=
  ⟨by norm_num [validFrom, retry_eligible], by simp,
    probe_cooldown_120h none 0 [] [BanEvent.probe 432001 432001] 0 0 432001 432001
      (by norm_num [validFrom, retry_eligible]) (by simp)⟩

/-! ## Shard assignment (C4), from `task_service.py`:
`shard_id = int((execute_at - current_time) // shard_interval)` with
`shard_interval = 900` in `_create_sharded_view_batches` and
`self.subscription_shard_interval = 60 * 60` in
`_schedule_sharded_subscription_tasks`.  Python float floor-division followed
by `int()` of the integral result is the mathematical floor. -/

def view_shard_id (execute_at base_time : ℚ) : ℤ :=
  ⌊(execute_at - base_time) / 900⌋

def subscription_shard_id (execute_at base_time : ℚ) : ℤ :=
  ⌊(execute_at - base_time) / 3600⌋

/-- Bucket function in the spec's words:
`shard_id(t) = floor((t.scheduled_execute_at − window_start) / shard_interval)`. -/
def spec_shard_id (execute_at window_start shard_interval : ℚ) : ℤ :=
  ⌊(execute_at - window_start) / shard_interval⌋

/-- C4: shard assignment is the deterministic bucket function
`floor((scheduled_execute_at − window_start) / shard_interval)` for both task
kinds (interval 900 s for views, 3600 s for subscriptions), and with
`shard_interval = 900`, `window_start = 0`, a task at
`scheduled_execute_at = 1000` lands in shard 1. -/
theorem shard_id_bucket_function (t w : ℚ) :
    view_shard_id t w = spec_shard_id t w 900
    ∧ subscription_shard_id t w = spec_shard_id t w 3600
    ∧ view_shard_id 1000 0 = 1 := by
  refine ⟨rfl, rfl, ?_⟩
  show ⌊(1000 - 0 : ℚ) / 900⌋ = 1
  rw [Int.floor_eq_iff]
  norm_num

/-! ## View-task spreading (C5), from
`task_service._create_sharded_view_batches`. -/

/-- Embeds the interval computation: `interval_per_account = duration / total`
for more than one account (else 0), then `max(interval, 30)`, then capped at
300 s (`if interval_per_account > 300: interval_per_account = 300`). -/
def interval_per_account (N : ℕ) (D : ℚ) : ℚ :=
  if 300 < max (if 1 < N then D / N else 0) 30 then 300
  else max (if 1 < N then D / N else 0) 30

/-- Interval in the spec's words: `D/N` clamped into `[30 s, 120 s]`. -/
def spec_view_interval (N : ℕ) (D : ℚ) : ℚ :=
  min (max (D / N) 30) 120

/-- Embeds `randomization_range = min(interval_per_account * 0.1, 30)`. -/
def view_jitter_range (N : ℕ) (D : ℚ) : ℚ :=
  min (interval_per_account N D * (1 / 10)) 30

/-- Embeds the pre-jitter slot time: `execute_at = current_time +
idx * interval_per_account`, pulled back to
`max_time - (total_accounts - idx - 1) * 30` when it overruns
`max_time = current_time + duration_seconds - 60`. -/
def view_raw_time (N idx : ℕ) (D now : ℚ) : ℚ :=
  if now + D - 60 < now + idx * interval_per_account N D
  then now + D - 60 - ((N : ℚ) - idx - 1) * 30
  else now + idx * interval_per_account N D

/-- Embeds the final scheduled time: jitter `r` added, then
`execute_at = max(execute_at, current_time + 30)` and
`execute_at = min(execute_at, current_time + duration_seconds - 30)`. -/
def view_execute_at (N idx : ℕ) (D now r : ℚ) : ℚ :=
  min (max (view_raw_time N idx D now + r) (now + 30)) (now + D - 30)

/-- C5 counterexample: the claim fails on the code in two ways.  The base
interval is NOT `D/N` clamped into `[30 s, 120 s]` — for `N = 2` tasks over
`D = 1000 s` the code computes `min(max(500, 30), 300) = 300`, while the
claim's clamp gives 120.  And without a lower bound on `D` the claimed window
containment fails as well: for `N = 1`, `D = 20 s`, `now = 0`, `r = 0` the
scheduled time is `−10`, below `now + 10`. -/
theorem view_interval_clamp_not_120 :
    interval_per_account 2 1000 ≠ spec_view_interval 2 1000
    ∧ view_execute_at 1 0 20 0 0 < 0 + 10 := by
  constructor
  · have e1 : interval_per_account 2 1000 = 300 := by
      rw [interval_per_account]
      norm_num [max_def]
    have e2 : spec_view_interval 2 1000 = 120 := by
      rw [spec_view_interval]
      norm_num [max_def, min_def]
    rw [e1, e2]
    norm_num
  · norm_num [view_execute_at, view_raw_time, interval_per_account,
      max_def, min_def]

/-- C5 (amended): the base interval is `D/N` (for `N ≥ 2`; 0 for fewer)
clamped into `[30 s, 300 s]`; the jitter range never exceeds 10% of the
interval; and, provided `D ≥ 40 s`, every resulting `scheduled_execute_at`
lies within `[now + 10 s, now + D − 30 s]`. -/
theorem view_task_spreading (N idx : ℕ) (D now r : ℚ) (hD : 40 ≤ D)
    (hr : |r| ≤ view_jitter_range N D) :
    interval_per_account N D = min (max (if 1 < N then D / N else 0) 30) 300
    ∧ view_jitter_range N D ≤ interval_per_account N D * (1 / 10)
    ∧ now + 10 ≤ view_execute_at N idx D now r
    ∧ view_execute_at N idx D now r ≤ now + D - 30 := by
  refine ⟨?_, min_le_left _ _, ?_, min_le_right _ _⟩
  · rw [interval_per_account]
    rcases le_or_lt (max (if 1 < N then D / N else 0) 30) 300 with h | h
    · rw [if_neg (not_lt.mpr h), min_eq_left h]
    · rw [if_pos h, min_eq_right h.le]
  · refine le_min (le_trans (by linarith) (le_max_right _ _)) (by linarith)

/-- Witness for `view_task_spreading` at `N = 2`, `D = 1000`, `idx = 0`,
`now = 0`, `r = 0`. -/
theorem view_task_spreading_witness :
    ((40 : ℚ) ≤ 1000) ∧ (|(0 : ℚ)| ≤ view_jitter_range 2 1000)
    ∧ (0 : ℚ) + 10 ≤ view_execute_at 2 0 1000 0 0 :=
  ⟨by norm_num,
    by norm_num [view_jitter_range, interval_per_account, max_def, min_def],
    (view_task_spreading 2 0 1000 0 0 (by norm_num)
      (by norm_num [view_jitter_range, interval_per_account, max_def, min_def])).2.2.1⟩

/-! ## Subscription spacing (C6), from
`task_service._calculate_precise_subscription_delay` /
`create_subscription_tasks`. -/

/-- Settings read by `_get_subscription_delays` (already converted to
seconds; `timeout_count` is the integer `K`). -/
structure SubParams where
  base_delay : ℚ
  range_val : ℚ
  accounts_delay : ℚ
  timeout_count : ℕ
  timeout_duration : ℚ
deriving DecidableEq

/-- Embeds `_calculate_precise_subscription_delay`:
`account_delay = account_index * accounts_delay`;
`random_variation` drawn from `uniform(-range_val, range_val)`;
`timeout_cycles = account_index // timeout_count` (Python integer division);
`total = account_delay + random_variation + timeout_cycles * timeout_duration`;
`total = max(total, base_delay)`. -/
def calculate_precise_subscription_delay (account_index : ℕ) (p : SubParams)
    (random_variation : ℚ) : ℚ :=
  max ((account_index : ℚ) * p.accounts_delay + random_variation
        + ((account_index / p.timeout_count : ℕ) : ℚ) * p.timeout_duration)
      p.base_delay

/-- Embeds `create_subscription_tasks`: the `i`-th shuffled account gets
`execute_at = current_time + delay`. -/
def subscription_execute_at (now : ℚ) (i : ℕ) (p : SubParams) (j : ℚ) : ℚ :=
  now + calculate_precise_subscription_delay i p j

/-- C6: the `i`-th identity's scheduled delay from now is
`i * accounts_delay` plus one symmetric jitter `j` (`|j| ≤ range_val`) plus
`floor(i / K) * timeout_duration` (one extra fixed pause per `K` completed
subscriptions), the total floored at `base_delay`. -/
theorem subscription_delay_formula (now : ℚ) (i : ℕ) (p : SubParams) (j : ℚ)
    (hK : 0 < p.timeout_count) (hj : |j| ≤ p.range_val) :
    subscription_execute_at now i p j
      = now + max ((i : ℚ) * p.accounts_delay + j
          + (⌊(i : ℚ) / (p.timeout_count : ℚ)⌋₊ : ℚ) * p.timeout_duration)
          p.base_delay := by
  rw [subscription_execute_at, calculate_precise_subscription_delay,
    Nat.floor_div_eq_div]

/-- Witness for `subscription_delay_formula` at `i = 5`,
`p = ⟨30, 5, 10, 4, 20⟩`, `j = 1`. -/
theorem subscription_delay_formula_witness :
    (0 < (4 : ℕ)) ∧ (|(1 : ℚ)| ≤ 5)
    ∧ subscription_execute_at 0 5 ⟨30, 5, 10, 4, 20⟩ 1
      = 0 + max ((5 : ℚ) * 10 + 1 + (⌊(5 : ℚ) / (4 : ℚ)⌋₊ : ℚ) * 20) 30 :=
  ⟨by norm_num, by norm_num,
    subscription_delay_formula 0 5 ⟨30, 5, 10, 4, 20⟩ 1 (by norm_num) (by norm_num)⟩

/-! ## Buffer reconciliation (C3), from `worker._reorder_buffer_tasks_safe`
and `worker._async_smart_buffer_management`. -/

/-- In-memory buffer task (fields the reconciliation logic inspects). -/
structure BufTask where
  phone : ℕ
  execute_at : ℚ
deriving DecidableEq

/-- Ready cut used by `_reorder_buffer_tasks_safe`:
`execute_at <= current_time + 30` ("ready now + 30 s margin"). -/
def ready_in_pass (now : ℚ) (t : BufTask) : Bool :=
  decide (t.execute_at ≤ now + 30)

/-- Sort key used throughout the worker: ascending `execute_at`. -/
def buf_le (a b : BufTask) : Bool :=
  decide (a.execute_at ≤ b.execute_at)

/-- Embeds `_reorder_buffer_tasks_safe` on state
`(buffer, redis "task_queue")`: splits the buffer into ready
(`execute_at ≤ now + 30`) and future tasks, returns the future ones to the
backend queue, and — when more than 200 spots remain
(`spots_available = max_buffer_size - len(ready)` with
`max_buffer_size = 1500`) — tops up with the earliest-scored queue entries
whose session is live, finally sorting the buffer by `execute_at`.
Result: (new buffer, tasks written back to the backend queue). -/
def reorder_buffer_tasks_safe (live : BufTask → Bool)
    (buffer redisQueue : List BufTask) (now : ℚ) :
    List BufTask × List BufTask :=
  let ready := buffer.filter (fun t => ready_in_pass now t)
  let future := buffer.filter (fun t => ! ready_in_pass now t)
  let spots := 1500 - ready.length
  if spots ≤ 200 then (ready, future)
  else
    let fetched := (((redisQueue ++ future).mergeSort buf_le).take spots).filter live
    ((ready ++ fetched).mergeSort buf_le, future)

/-- Embeds the `ready_now` count of `_analyze_buffer_tasks`
(`execute_at <= current_time`). -/
def count_ready_now (now : ℚ) (buffer : List BufTask) : ℕ :=
  (buffer.filter (fun t => decide (t.execute_at ≤ now))).length

/-- Embeds `_async_smart_buffer_management`: when more than 200 tasks in the
buffer are ready now the pass is skipped (buffer untouched, nothing written
back); otherwise `_reorder_buffer_tasks_safe` runs. -/
def async_smart_buffer_management (live : BufTask → Bool)
    (buffer redisQueue : List BufTask) (now : ℚ) :
    List BufTask × List BufTask :=
  if 200 < count_ready_now now buffer then (buffer, [])
  else reorder_buffer_tasks_safe live buffer redisQueue now

/-- C3: a reconciliation pass keeps every ready task (`execute_at ≤ now`,
live session) in the buffer, and every task it writes back to the backend
queue has `execute_at` strictly in the future. -/
theorem reconciliation_preserves_ready (live : BufTask → Bool)
    (buffer redisQueue : List BufTask) (now : ℚ) (t : BufTask)
    (ht : t ∈ buffer) (hready : t.execute_at ≤ now) (hlive : live t = true) :
    t ∈ (async_smart_buffer_management live buffer redisQueue now).1
    ∧ ∀ u ∈ (async_smart_buffer_management live buffer redisQueue now).2,
        now < u.execute_at := by
  have hr : ready_in_pass now t = true := decide_eq_true (by linarith)
  constructor
  · unfold async_smart_buffer_management
    split
    · exact ht
    · simp only [reorder_buffer_tasks_safe]
      split
      · exact List.mem_filter.mpr ⟨ht, hr⟩
      · simp only [List.mem_mergeSort]
        exact List.mem_append_left _ (List.mem_filter.mpr ⟨ht, hr⟩)
  · intro u hu
    unfold async_smart_buffer_management at hu
    split at hu
    · simp at hu
    · simp only [reorder_buffer_tasks_safe] at hu
      have hfu : u ∈ buffer.filter (fun x => ! ready_in_pass now x) := by
        split at hu
        · exact hu
        · exact hu
      have := (List.mem_filter.mp hfu).2
      simp only [Bool.not_eq_true'] at this
      have hlt : ¬ (u.execute_at ≤ now + 30) := of_decide_eq_false this
      linarith [not_le.mp hlt]

/-- Witness for `reconciliation_preserves_ready`: a one-task buffer with a
ready task survives the pass. -/
theorem reconciliation_preserves_ready_witness :
    ((⟨1, 5⟩ : BufTask) ∈ [(⟨1, 5⟩ : BufTask)])
    ∧ ((5 : ℚ) ≤ 10)
    ∧ (⟨1, 5⟩ : BufTask)
        ∈ (async_smart_buffer_management (fun _ => true) [⟨1, 5⟩] [] 10).1 :=
  ⟨by simp, by norm_num,
    (reconciliation_preserves_ready (fun _ => true) [⟨1, 5⟩] [] 10 ⟨1, 5⟩
      (by simp) (by norm_num) rfl).1⟩

/-! ## Backend queue and shards (C1), from
`task_service._schedule_sharded_batches` / `_register_active_shards`
(producer side) and `worker._fill_task_buffer` (consumer side).

The Redis keys the two sides use are modelled as a structured key type whose
constructors correspond to the key strings: `RKey.task_queue` is
`"task_queue"`, `RKey.view_shard st sid` is `f"view_shard_{st}_{sid}"`, and
`RKey.active_view_shards` is `"active_view_shards"` (the rendering is
injective, so distinct constructors are distinct keys). -/

/-- Redis keys touched by the scheduler and the buffer fill. -/
inductive RKey
  | task_queue
  | view_shard (startTime : ℤ) (sid : ℤ)
  | active_view_shards
deriving DecidableEq

/-- Shard metadata registered in `active_view_shards`. -/
structure ShardMeta where
  shard_id : ℤ
  start_time : ℚ
  end_time : ℚ
deriving DecidableEq

/-- Member of a Redis sorted set: a serialized task or shard metadata. -/
inductive RVal
  | task (t : BufTask)
  | meta (m : ShardMeta)
deriving DecidableEq

/-- Redis modelled as a map from key to sorted-set entries (member, score). -/
def Store := RKey → List (RVal × ℚ)

/-- The backend store before any scheduling. -/
def emptyStore : Store := fun _ => []

/-- Embeds `redis.zadd(key, mapping)`: the entries join the set at `key`. -/
def zadd (key : RKey) (entries : List (RVal × ℚ)) (s : Store) : Store :=
  fun k => if k = key then s k ++ entries else s k

/-- Embeds `redis.zrem(key, member)`. -/
def zrem (key : RKey) (v : RVal) (s : Store) : Store :=
  fun k => if k = key then (s k).filter (fun e => ! decide (e.1 = v)) else s k

/-- Embeds `redis.zrangebyscore(key, min=lo, max=hi, num=num)`: entries with
score in `[lo, hi]`, ascending by score, at most `num` of them. -/
def zrangebyscore (s : Store) (key : RKey) (lo hi : ℚ) (num : ℕ) :
    List (RVal × ℚ) :=
  (((s key).filter (fun e => decide (lo ≤ e.2) && decide (e.2 ≤ hi))).mergeSort
    (fun a b => decide (a.2 ≤ b.2))).take num

/-- Python `int()` truncation toward zero, applied to `shard_start_time`. -/
def pyInt (q : ℚ) : ℤ := if q < 0 then -⌊-q⌋ else ⌊q⌋

/-- Embeds `_schedule_sharded_batches` plus `_register_active_shards` for a
view batch: every task is written (as a one-task batch, scored by its
`execute_at`) into the sorted set
`view_shard_{int(base + shard_id * 900)}_{shard_id}` with
`shard_id = int((execute_at - base) // 900)`, and each used shard gets a
metadata entry in `active_view_shards` scored by its start time. -/
def schedule_sharded_batches (base : ℚ) (tasks : List BufTask) (s : Store) :
    Store :=
  let s1 := tasks.foldl (fun st t =>
    zadd (RKey.view_shard (pyInt (base + view_shard_id t.execute_at base * 900))
        (view_shard_id t.execute_at base))
      [(RVal.task t, t.execute_at)] st) s
  ((tasks.map (fun t => view_shard_id t.execute_at base)).dedup).foldl
    (fun st sid =>
      zadd RKey.active_view_shards
        [(RVal.meta ⟨sid, base + sid * 900, base + sid * 900 + 900⟩,
          base + sid * 900)] st) s1

/-- Embeds `worker._fill_task_buffer` (with `min_buffer_size = 1400`,
`max_buffer_size = 1500`): nothing happens at or above the low-water mark;
otherwise due entries (score ≤ now + 60), or failing that near-future entries
(score in `[now, now + 300]`, at most 100), are pulled from the sorted set
`task_queue`, removed from Redis, and the ones with a live session are
appended to the buffer. -/
def fill_task_buffer (live : BufTask → Bool) (buffer : List BufTask)
    (s : Store) (now : ℚ) : List BufTask × Store :=
  if 1400 ≤ buffer.length then (buffer, s)
  else
    let needed := 1500 - buffer.length
    let d1 := zrangebyscore s RKey.task_queue 0 (now + 60) needed
    let data := if d1.isEmpty then
        zrangebyscore s RKey.task_queue now (now + 300) (min needed 100)
      else d1
    let newTasks := data.filterMap (fun e => match e.1 with
      | RVal.task t => if live t then some t else none
      | RVal.meta _ => none)
    (buffer ++ newTasks, data.foldl (fun st e => zrem RKey.task_queue e.1 st) s)

/-- Folding `zadd` writes over keys different from `k` leaves `k` alone. -/
theorem foldl_zadd_ne {α : Type} (k : RKey) (f : α → RKey)
    (g : α → List (RVal × ℚ)) (l : List α) (s : Store)
    (h : ∀ a ∈ l, f a ≠ k) :
    (l.foldl (fun st a => zadd (f a) (g a) st) s) k = s k := by
  induction l generalizing s with
  | nil => rfl
  | cons a l ih =>
    rw [List.foldl_cons, ih _ (fun b hb => h b (List.mem_cons_of_mem a hb))]
    have hne : f a ≠ k := h a (List.mem_cons_self a l)
    simp only [zadd]
    rw [if_neg (Ne.symm hne)]

/-- The scheduler never writes the `task_queue` key. -/
theorem schedule_preserves_task_queue (base : ℚ) (tasks : List BufTask)
    (s : Store) :
    schedule_sharded_batches base tasks s RKey.task_queue
      = s RKey.task_queue := by
  unfold schedule_sharded_batches
  rw [foldl_zadd_ne RKey.task_queue _ _ _ _ (by intro a _; simp)]
  rw [foldl_zadd_ne RKey.task_queue
      (fun t : BufTask =>
        RKey.view_shard (pyInt (base + view_shard_id t.execute_at base * 900))
          (view_shard_id t.execute_at base)) _ _ _ (by intro a _; simp)]

/-- `_fill_task_buffer` pulls nothing when the `task_queue` set is empty. -/
theorem fill_of_empty_queue (live : BufTask → Bool) (buffer : List BufTask)
    (s : Store) (now : ℚ) (h : s RKey.task_queue = []) :
    fill_task_buffer live buffer s now = (buffer, s) := by
  unfold fill_task_buffer
  split
  · rfl
  · simp [zrangebyscore, h]

/-- C1 fails on the code: a task the Action Scheduler writes into a shard is
never pulled by the worker's buffer fill.  Scheduling the single view task
`⟨phone 7, execute_at 1000⟩` at `base_time 0` stores it in shard
`view_shard_900_1`, leaves `task_queue` empty, and `_fill_task_buffer` —
which reads only `task_queue` — returns the buffer and store unchanged at
every poll time, so the task is pulled zero times (not exactly once) and is
silently lost when the shard key's TTL expires. -/
theorem scheduled_view_task_never_reaches_buffer (now : ℚ)
    (live : BufTask → Bool) (buffer : List BufTask) :
    (schedule_sharded_batches 0 [⟨7, 1000⟩] emptyStore) RKey.task_queue = []
    ∧ fill_task_buffer live buffer
        (schedule_sharded_batches 0 [⟨7, 1000⟩] emptyStore) now
        = (buffer, schedule_sharded_batches 0 [⟨7, 1000⟩] emptyStore)
    ∧ (RVal.task ⟨7, 1000⟩, (1000 : ℚ))
        ∈ (schedule_sharded_batches 0 [⟨7, 1000⟩] emptyStore)
            (RKey.view_shard 900 1) := by
  have h0 : (schedule_sharded_batches 0 [⟨7, 1000⟩] emptyStore) RKey.task_queue
      = [] := by
    rw [schedule_preserves_task_queue]
    rfl
  have hsid : view_shard_id 1000 0 = 1 := by
    show ⌊(1000 - 0 : ℚ) / 900⌋ = 1
    rw [Int.floor_eq_iff]
    norm_num
  have hpy3 : pyInt (900 : ℚ) = 900 := by
    rw [pyInt]
    norm_num
  refine ⟨h0, fill_of_empty_queue live buffer _ now h0, ?_⟩
  unfold schedule_sharded_batches
  simp [hsid, hpy3, zadd, emptyStore]
